import Mathlib

/-!
Verification of `src/11.execvpe/execvpe.c`.

The file contains two functions:

* `execvpe(file, argv, envp)` — saves the process-wide `environ` pointer,
  installs `envp` in its place, calls the platform `execvp` (which consults
  the installed environment), and, if `execvp` returns (i.e. failed),
  restores the saved pointer and returns `execvp`'s result.
* `main()` — prints the default search path, forks, has the child call
  `execvpe("env", ...)` with a one-entry replacement environment, and has
  the parent `wait` and report the child's status.

The embedding models the environment as the list of strings the `environ`
pointer points to, the platform `execvp` as an oracle that either replaces
the process image (never returning) or fails with an integer result, and
records a trace of the statements `execvpe` executes.
-/

namespace Execvpe

/-- A process environment: the value of the process-wide `environ` pointer,
modelled as the list of `NAME=value` strings it points at. -/
abbrev Env := List String

/-- Outcome of the underlying platform `execvp` call: either the process
image is replaced (the call never returns), or the call fails and returns
`ret` (on POSIX platforms, `-1`). -/
inductive ExecvpOutcome where
  | replaced
  | failed (ret : Int)
deriving DecidableEq, Repr

/-- The platform `execvp` primitive, abstracted as a function of the file
name, the argument vector, and the process environment in effect at the
time of the call (`execvp` consults the process-wide `environ`). -/
abbrev Platform := String → List String → Env → ExecvpOutcome

/-- Process state as seen by `execvpe`: the process-wide `environ` pointer,
together with all other caller-reachable state (`other`), which the code of
`execvpe` never mentions. -/
structure ProcState (α : Type) where
  environ : Env
  other : α
deriving DecidableEq, Repr

/-- Observable events of one `execvpe` call, one per statement of the C
body (execvpe.c lines 11, 14, 17, 20). -/
inductive Event where
  | saveEnviron (e : Env)
  | setEnviron (e : Env)
  | callExecvp (file : String) (argv : List String) (env : Env)
  | restoreEnviron (e : Env)
deriving DecidableEq, Repr

/-- Result of an `execvpe` call: either the process image was replaced with
environment `env` in effect (control never returns to the caller), or the
call returns value `ret` with the process in state `st`. -/
inductive ExecvpeResult (α : Type) where
  | noReturn (env : Env)
  | returns (ret : Int) (st : ProcState α)
deriving DecidableEq, Repr

/-- Shallow embedding of `execvpe` (execvpe.c lines 9–24), together with
the trace of statements it executes.

    int execvpe(const char *file, char *const argv[], char *const envp[]) {
        char **old_environ = environ;
        environ = (char **)envp;
        int result = execvp(file, argv);
        environ = old_environ;
        return result;
    }

If `execvp` succeeds the process image is gone, so neither the restoring
assignment nor the `return` executes. -/
def execvpe {α : Type} (plat : Platform) (file : String) (argv : List String)
    (envp : Env) (st : ProcState α) : ExecvpeResult α × List Event :=
  -- char **old_environ = environ;
  let old_environ := st.environ
  -- environ = (char **)envp;
  let st1 : ProcState α := { st with environ := envp }
  -- int result = execvp(file, argv);  (execvp consults the installed environ)
  match plat file argv st1.environ with
  | .replaced =>
      (.noReturn st1.environ,
       [.saveEnviron old_environ, .setEnviron envp,
        .callExecvp file argv st1.environ])
  | .failed result =>
      -- environ = old_environ;  return result;
      let st2 : ProcState α := { st1 with environ := old_environ }
      (.returns result st2,
       [.saveEnviron old_environ, .setEnviron envp,
        .callExecvp file argv st1.environ, .restoreEnviron old_environ])

/-- glibc `WIFEXITED`: the child terminated normally iff the low 7 bits of
the wait status word are zero. -/
def WIFEXITED (status : Nat) : Bool := status &&& 0x7f == 0

/-- glibc `WEXITSTATUS`: the child's exit code, bits 8–15 of the wait
status word. -/
def WEXITSTATUS (status : Nat) : Nat := (status &&& 0xff00) >>> 8

/-- Result of the `fork()` call in `main`: `-1` on failure, `0` in the
child process, the child's pid (positive) in the parent. -/
inductive ForkResult where
  | failure
  | child
  | parent (pid : Nat)
deriving DecidableEq, Repr

/-- Result of the `wait(&status)` call in `main`: `-1` on failure,
otherwise the reaped pid together with the filled-in status word. -/
inductive WaitResult where
  | failure
  | ok (pid : Nat) (status : Nat)
deriving DecidableEq, Repr

/-- Outcome of running `main` in one process: either the process image was
replaced (the child whose exec succeeded), or `main` returns `exitCode`
having written the lines `stdout` and `stderr`. -/
inductive MainResult where
  | imageReplaced (env : Env) (stdout : List String)
  | exited (exitCode : Int) (stdout : List String) (stderr : List String)
deriving DecidableEq, Repr

/-- glibc's `_PATH_DEFPATH` from `<paths.h>`. -/
def PATH_DEFPATH : String := "/usr/bin:/bin"

/-- Shallow embedding of `main` (execvpe.c lines 26–73), parametrised by
the behaviour of the platform primitives `execvp`, `fork` and `wait`.
`perror(msg)` is modelled as writing `msg` to standard error (the appended
`errno` description is elided). -/
def main {α : Type} (plat : Platform) (forkRes : ForkResult)
    (waitRes : WaitResult) (st : ProcState α) : MainResult :=
  -- char* path = _PATH_DEFPATH;  printf("%s\n", path);
  let out0 : List String := [PATH_DEFPATH]
  -- char *args[] = {"env", NULL};
  let args : List String := ["env"]
  -- char *new_envp[] = {"PATH=/bin:/usr/bin", NULL};
  let new_envp : Env := ["PATH=/bin:/usr/bin"]
  -- pid_t pid = fork();  switch (pid) { ... }
  match forkRes with
  | .failure =>
      -- perror("Failed to fork");  return 1;
      .exited 1 out0 ["Failed to fork"]
  | .child =>
      -- execvpe("env", args, new_envp);
      match execvpe plat "env" args new_envp st with
      | (.noReturn env, _) => .imageReplaced env out0
      | (.returns _ _, _) =>
          -- perror("Failed to execute execvpe");  return 1;
          .exited 1 out0 ["Failed to execute execvpe"]
  | .parent _ =>
      -- int status;  pid_t wait_result = wait(&status);
      match waitRes with
      | .failure =>
          -- perror("Failed to wait for the child process");  return 1;
          .exited 1 out0 ["Failed to wait for the child process"]
      | .ok _ status =>
          if WIFEXITED status then
            -- printf("\nChild process exited with code %d\n", WEXITSTATUS(status));  return 0;
            .exited 0
              (out0 ++
               ["\nChild process exited with code " ++
                toString (WEXITSTATUS status)]) []
          else
            -- printf("\nChild process exited with error\n");  falls through to return 0;
            .exited 0 (out0 ++ ["\nChild process exited with error"]) []

/-- The exit code of a `main` run, when `main` returned at all. -/
def exitCode : MainResult → Option Int
  | .exited c _ _ => some c
  | .imageReplaced _ _ => none

/-- C1: whenever the underlying `execvp` fails, `execvpe` returns that very
failure result and the process state afterwards is identical to the state
before the call — in particular the `environ` binding is restored. -/
theorem execvpe_failed_restores_environ {α : Type} (plat : Platform)
    (file : String) (argv : List String) (envp : Env) (st : ProcState α)
    (ret : Int) (h : plat file argv envp = ExecvpOutcome.failed ret) :
    (execvpe plat file argv envp st).1 = ExecvpeResult.returns ret st := by
  simp only [execvpe, h]

/-- Witness for C1: a concrete failing call restores the environment. -/
theorem execvpe_failed_restores_environ_witness :
    (execvpe (fun _ _ _ => ExecvpOutcome.failed (-1)) "nosuch" ["nosuch"]
        ["A=1"] (⟨["B=2"], ()⟩ : ProcState Unit)).1 =
      ExecvpeResult.returns (-1) ⟨["B=2"], ()⟩ :=
  execvpe_failed_restores_environ _ "nosuch" ["nosuch"] ["A=1"]
    ⟨["B=2"], ()⟩ (-1) rfl

/-- C2: every call to `execvpe` begins with exactly the sequence: save the
current `environ`, install `envp` as `environ`, call `execvp` with the
given file and arguments while the installed environment `envp` is the one
in effect. -/
theorem execvpe_step_sequence {α : Type} (plat : Platform) (file : String)
    (argv : List String) (envp : Env) (st : ProcState α) :
    List.take 3 (execvpe plat file argv envp st).2 =
      [Event.saveEnviron st.environ, Event.setEnviron envp,
       Event.callExecvp file argv envp] := by
  simp only [execvpe]
  cases h : plat file argv envp <;> simp [h]

/-- C3: the restoring assignment `environ = old_environ` executes exactly
when the underlying `execvp` failed; and the call never returns (the
process image is replaced, with `envp` in effect) exactly when `execvp`
succeeded. -/
theorem execvpe_restore_iff_failed {α : Type} (plat : Platform)
    (file : String) (argv : List String) (envp : Env) (st : ProcState α) :
    ((∃ e, Event.restoreEnviron e ∈ (execvpe plat file argv envp st).2) ↔
       (∃ ret, plat file argv envp = ExecvpOutcome.failed ret)) ∧
    ((execvpe plat file argv envp st).1 = ExecvpeResult.noReturn envp ↔
       plat file argv envp = ExecvpOutcome.replaced) := by
  simp only [execvpe]
  cases h : plat file argv envp <;> simp [h]

/-- C4: two consecutive `execvpe` calls whose underlying execs both fail
leave the `environ` binding identical to its value before either call. -/
theorem execvpe_twice_failed_environ_identity {α : Type}
    (p1 p2 : Platform) (f1 f2 : String) (a1 a2 : List String)
    (e1 e2 : Env) (st : ProcState α) (r1 r2 : Int)
    (h1 : p1 f1 a1 e1 = ExecvpOutcome.failed r1)
    (h2 : p2 f2 a2 e2 = ExecvpOutcome.failed r2) :
    ∀ st1, (execvpe p1 f1 a1 e1 st).1 = ExecvpeResult.returns r1 st1 →
      ∀ st2, (execvpe p2 f2 a2 e2 st1).1 = ExecvpeResult.returns r2 st2 →
        st2.environ = st.environ := by
  intro st1 hst1 st2 hst2
  simp only [execvpe, h1] at hst1
  simp only [execvpe, h2] at hst2
  cases hst1
  cases hst2
  rfl

/-- Witness for C4: two concrete failing calls compose to the identity on
the environment binding. -/
theorem execvpe_twice_failed_environ_identity_witness :
    ((⟨["B=2"], ()⟩ : ProcState Unit)).environ = ["B=2"] :=
  execvpe_twice_failed_environ_identity
    (fun _ _ _ => ExecvpOutcome.failed (-1))
    (fun _ _ _ => ExecvpOutcome.failed (-1))
    "x" "y" ["x"] ["y"] ["A=1"] ["C=3"] ⟨["B=2"], ()⟩ (-1) (-1)
    rfl rfl ⟨["B=2"], ()⟩ rfl ⟨["B=2"], ()⟩ rfl

/-- C5: `main` exits with code 1 exactly on fork failure, exec failure in
the child, and wait failure in the parent; it exits with code 0 on every
normal completion (parent whose wait succeeded, whether it reports a normal
child exit or an abnormal one); in the remaining case (child whose exec
succeeded) it never returns.  No other exit code is produced. -/
theorem main_exit_codes {α : Type} (plat : Platform) (fr : ForkResult)
    (wr : WaitResult) (st : ProcState α) :
    exitCode (main plat fr wr st) =
      match fr with
      | .failure => some 1
      | .child =>
          match plat "env" ["env"] ["PATH=/bin:/usr/bin"] with
          | .replaced => none
          | .failed _ => some 1
      | .parent _ =>
          match wr with
          | .failure => some 1
          | .ok _ _ => some 0 := by
  cases fr with
  | failure => rfl
  | child =>
      simp only [main, execvpe]
      cases h : plat "env" ["env"] ["PATH=/bin:/usr/bin"] <;> simp [h, exitCode]
  | parent p =>
      cases wr with
      | failure => rfl
      | ok pid status =>
          simp only [main]
          by_cases h : WIFEXITED status <;> simp [h, exitCode]

/-- C6: each of the three error classes — fork failure, exec failure in the
child, wait failure in the parent — makes the process experiencing it write
its human-readable message to standard error and exit with code 1. -/
theorem main_errors_report_and_exit {α : Type} (plat : Platform)
    (wr : WaitResult) (st : ProcState α) (r : Int)
    (h : plat "env" ["env"] ["PATH=/bin:/usr/bin"] = ExecvpOutcome.failed r) :
    main plat ForkResult.failure wr st =
      MainResult.exited 1 [PATH_DEFPATH] ["Failed to fork"] ∧
    main plat ForkResult.child wr st =
      MainResult.exited 1 [PATH_DEFPATH] ["Failed to execute execvpe"] ∧
    ∀ p, main plat (ForkResult.parent p) WaitResult.failure st =
      MainResult.exited 1 [PATH_DEFPATH]
        ["Failed to wait for the child process"] := by
  refine ⟨rfl, ?_, fun p => rfl⟩
  simp only [main, execvpe, h]

/-- Witness for C6: the three error reports at a concrete failing world. -/
theorem main_errors_report_and_exit_witness :
    main (fun _ _ _ => ExecvpOutcome.failed (-1)) ForkResult.child
        (WaitResult.ok 7 0) (⟨["HOME=/root"], ()⟩ : ProcState Unit) =
      MainResult.exited 1 [PATH_DEFPATH] ["Failed to execute execvpe"] :=
  (main_errors_report_and_exit (fun _ _ _ => ExecvpOutcome.failed (-1))
    (WaitResult.ok 7 0) ⟨["HOME=/root"], ()⟩ (-1) rfl).2.1

/-- C7: the parent whose `wait` succeeded reports, on standard output, the
child's exit code extracted with `WEXITSTATUS` when `WIFEXITED` holds of
the status word, and the abnormal-termination message otherwise. -/
theorem main_parent_reports_child_status {α : Type} (plat : Platform)
    (p pid status : Nat) (st : ProcState α) :
    main plat (ForkResult.parent p) (WaitResult.ok pid status) st =
      if WIFEXITED status then
        MainResult.exited 0
          [PATH_DEFPATH,
           "\nChild process exited with code " ++ toString (WEXITSTATUS status)]
          []
      else
        MainResult.exited 0
          [PATH_DEFPATH, "\nChild process exited with error"] [] := by
  simp only [main]
  by_cases h : WIFEXITED status <;> simp [h]

/-- C8: when `execvpe` returns at all, the value it returns is exactly the
value the underlying `execvp` call failed with — the error result is passed
through unmapped. -/
theorem execvpe_return_value_is_execvp_result {α : Type} (plat : Platform)
    (file : String) (argv : List String) (envp : Env) (st stF : ProcState α)
    (r : Int)
    (h : (execvpe plat file argv envp st).1 = ExecvpeResult.returns r stF) :
    plat file argv envp = ExecvpOutcome.failed r := by
  revert h
  simp only [execvpe]
  cases hp : plat file argv envp <;> intro h
  · exact absurd h (by simp)
  · simp only [ExecvpeResult.returns.injEq] at h
    rw [h.1]

/-- Witness for C8: a concrete returning call carries execvp's own value. -/
theorem execvpe_return_value_is_execvp_result_witness :
    (fun _ _ _ => ExecvpOutcome.failed (-1) : Platform) "nosuch" ["nosuch"]
        ["A=1"] = ExecvpOutcome.failed (-1) :=
  execvpe_return_value_is_execvp_result (fun _ _ _ => ExecvpOutcome.failed (-1))
    "nosuch" ["nosuch"] ["A=1"]
    (⟨["B=2"], ()⟩ : ProcState Unit) ⟨["B=2"], ()⟩ (-1) rfl

/-- C9: when `wait` succeeds but the status word says the child did not
exit normally, `main` prints the abnormal-termination message on standard
output and still returns exit code 0. -/
theorem main_abnormal_child_exit_code_zero {α : Type} (plat : Platform)
    (p pid status : Nat) (st : ProcState α)
    (h : WIFEXITED status = false) :
    main plat (ForkResult.parent p) (WaitResult.ok pid status) st =
      MainResult.exited 0
        [PATH_DEFPATH, "\nChild process exited with error"] [] := by
  simp [main, h]

/-- Witness for C9: status word 9 (killed by SIGKILL) is not a normal
exit, and the parent reports it with exit code 0. -/
theorem main_abnormal_child_exit_code_zero_witness :
    main (fun _ _ _ => ExecvpOutcome.replaced) (ForkResult.parent 7)
        (WaitResult.ok 7 9) (⟨["HOME=/root"], ()⟩ : ProcState Unit) =
      MainResult.exited 0
        [PATH_DEFPATH, "\nChild process exited with error"] [] :=
  main_abnormal_child_exit_code_zero _ 7 7 9 ⟨["HOME=/root"], ()⟩ (by decide)

/-- C10: a failing `execvpe` call leaves every component of the process
state other than `environ` untouched, restores `environ` itself, and passes
the caller's `file`, `argv` and `envp` to the underlying `execvp` call
unmodified. -/
theorem execvpe_frame {α : Type} (plat : Platform) (file : String)
    (argv : List String) (envp : Env) (st stF : ProcState α) (r : Int)
    (h : (execvpe plat file argv envp st).1 = ExecvpeResult.returns r stF) :
    stF.other = st.other ∧ stF.environ = st.environ ∧
    Event.callExecvp file argv envp ∈ (execvpe plat file argv envp st).2 := by
  revert h
  simp only [execvpe]
  cases hp : plat file argv envp <;> intro h
  · exact absurd h (by simp)
  · simp only [ExecvpeResult.returns.injEq] at h
    rw [← h.2]
    simp

/-- Witness for C10: the frame condition at a concrete failing call. -/
theorem execvpe_frame_witness :
    ((⟨["B=2"], (5 : Nat)⟩ : ProcState Nat)).other = 5 :=
  (execvpe_frame (fun _ _ _ => ExecvpOutcome.failed (-1)) "nosuch" ["nosuch"]
    ["A=1"] ⟨["B=2"], (5 : Nat)⟩ ⟨["B=2"], (5 : Nat)⟩ (-1) rfl).1

end Execvpe
